import Mathlib

/-!
Formal model of the GitHub Actions event receiver
(`src/receiver/githubactionseventreceiver/trace_receiver.go`).

The Go source is shallowly embedded: bytes are `Nat` values kept below 256,
byte strings are `List Nat`, Go `int64`/`int` values are `Int`, and the
fallible hex pipeline returns `Option`.  `crypto/sha256`, `crypto/sha1`,
`crypto/hmac`, `encoding/hex` and `fmt.Sprintf("%d", ·)` are modelled by
executable reference implementations of the corresponding standard
algorithms, checked below against published test vectors.
-/

set_option maxRecDepth 100000

/-! ## Byte-level helpers -/

/-- Truncation to a 32-bit word. -/
def w32 (n : Nat) : Nat := n % 4294967296

/-- Rotate a 32-bit word right by `n` positions. -/
def rotr (x n : Nat) : Nat := w32 ((x >>> n) ||| (x <<< (32 - n)))

/-- Rotate a 32-bit word left by `n` positions. -/
def rotl (x n : Nat) : Nat := w32 ((x <<< n) ||| (x >>> (32 - n)))

/-- Word lookup with default 0, mirroring indexed access into a schedule. -/
def nthW (l : List Nat) (i : Nat) : Nat := l.getD i 0

/-- Big-endian assembly of 32-bit words from bytes. -/
def bytesToWords : List Nat → List Nat
  | b0 :: b1 :: b2 :: b3 :: rest => (((b0 * 256 + b1) * 256 + b2) * 256 + b3) :: bytesToWords rest
  | _ => []

/-- Big-endian byte serialization of a 32-bit word. -/
def word32be (w : Nat) : List Nat := [w / 16777216 % 256, w / 65536 % 256, w / 256 % 256, w % 256]

/-- Big-endian byte serialization of a 64-bit length field. -/
def be64 (n : Nat) : List Nat :=
  [n / 72057594037927936 % 256, n / 281474976710656 % 256, n / 1099511627776 % 256,
   n / 4294967296 % 256, n / 16777216 % 256, n / 65536 % 256, n / 256 % 256, n % 256]

/-- Merkle–Damgård padding shared by SHA-256 and SHA-1. -/
def shaPad (msg : List Nat) : List Nat :=
  msg ++ [128] ++ List.replicate ((119 - msg.length % 64) % 64) 0 ++ be64 (8 * msg.length)

/-- Fuel-driven split into 64-byte blocks. -/
def chunks64Aux : Nat → List Nat → List (List Nat)
  | 0, _ => []
  | _ + 1, [] => []
  | fuel + 1, l => l.take 64 :: chunks64Aux fuel (l.drop 64)

/-- Split a byte list into 64-byte blocks. -/
def chunks64 (l : List Nat) : List (List Nat) := chunks64Aux l.length l

/-! ## SHA-256 (`crypto/sha256`) -/

/-- The eight-word working state of SHA-256. -/
structure Words8 where
  a : Nat
  b : Nat
  c : Nat
  d : Nat
  e : Nat
  f : Nat
  g : Nat
  h : Nat
deriving Repr, DecidableEq

def bigSigma0 (x : Nat) : Nat := rotr x 2 ^^^ rotr x 13 ^^^ rotr x 22

def bigSigma1 (x : Nat) : Nat := rotr x 6 ^^^ rotr x 11 ^^^ rotr x 25

def smallSigma0 (x : Nat) : Nat := rotr x 7 ^^^ rotr x 18 ^^^ (x >>> 3)

def smallSigma1 (x : Nat) : Nat := rotr x 17 ^^^ rotr x 19 ^^^ (x >>> 10)

def shaCh (x y z : Nat) : Nat := (x &&& y) ^^^ ((x ^^^ 4294967295) &&& z)

def shaMaj (x y z : Nat) : Nat := (x &&& y) ^^^ (x &&& z) ^^^ (y &&& z)

/-- FIPS 180-4 round constants for SHA-256, written in decimal. -/
def sha256K : List Nat :=
  [1116352408, 1899447441, 3049323471, 3921009573, 961987163, 1508970993,
   2453635748, 2870763221, 3624381080, 310598401, 607225278, 1426881987,
   1925078388, 2162078206, 2614888103, 3248222580, 3835390401, 4022224774,
   264347078, 604807628, 770255983, 1249150122, 1555081692, 1996064986,
   2554220882, 2821834349, 2952996808, 3210313671, 3336571891, 3584528711,
   113926993, 338241895, 666307205, 773529912, 1294757372, 1396182291,
   1695183700, 1986661051, 2177026350, 2456956037, 2730485921, 2820302411,
   3259730800, 3345764771, 3516065817, 3600352804, 4094571909, 275423344,
   430227734, 506948616, 659060556, 883997877, 958139571, 1322822218,
   1537002063, 1747873779, 1955562222, 2024104815, 2227730452, 2361852424,
   2428436474, 2756734187, 3204031479, 3329325298]

/-- FIPS 180-4 initial hash state for SHA-256, written in decimal. -/
def sha256Init : Words8 :=
  ⟨1779033703, 3144134277, 1013904242, 2773480762, 1359893119, 2600822924,
   528734635, 1541459225⟩

/-- Message-schedule extension, appending `fuel` more words. -/
def sha256Extend : Nat → List Nat → List Nat
  | 0, ws => ws
  | n + 1, ws =>
    let t := ws.length
    sha256Extend n
      (ws ++ [w32 (nthW ws (t - 16) + smallSigma0 (nthW ws (t - 15)) + nthW ws (t - 7) +
        smallSigma1 (nthW ws (t - 2)))])

/-- One SHA-256 compression round, consuming a `(constant, schedule-word)` pair. -/
def sha256Round (s : Words8) (kw : Nat × Nat) : Words8 :=
  let t1 := w32 (s.h + bigSigma1 s.e + shaCh s.e s.f s.g + kw.1 + kw.2)
  let t2 := w32 (bigSigma0 s.a + shaMaj s.a s.b s.c)
  ⟨w32 (t1 + t2), s.a, s.b, s.c, w32 (s.d + t1), s.e, s.f, s.g⟩

/-- Compression of one 64-byte block. -/
def sha256Compress (h : Words8) (block : List Nat) : Words8 :=
  let ws := sha256Extend 48 (bytesToWords block)
  let fin := (sha256K.zip ws).foldl sha256Round h
  ⟨w32 (h.a + fin.a), w32 (h.b + fin.b), w32 (h.c + fin.c), w32 (h.d + fin.d),
   w32 (h.e + fin.e), w32 (h.f + fin.f), w32 (h.g + fin.g), w32 (h.h + fin.h)⟩

/-- SHA-256 digest (32 bytes) of a byte list; models `sha256.Sum256`. -/
def sha256 (msg : List Nat) : List Nat :=
  let fin := (chunks64 (shaPad msg)).foldl sha256Compress sha256Init
  ([fin.a, fin.b, fin.c, fin.d, fin.e, fin.f, fin.g, fin.h]).flatMap word32be

/-! ## SHA-1 (`crypto/sha1`) -/

/-- The five-word working state of SHA-1. -/
structure Words5 where
  a : Nat
  b : Nat
  c : Nat
  d : Nat
  e : Nat
deriving Repr, DecidableEq

/-- FIPS 180-4 initial hash state for SHA-1, written in decimal. -/
def sha1Init : Words5 := ⟨1732584193, 4023233417, 2562383102, 271733878, 3285377520⟩

/-- SHA-1 message-schedule extension. -/
def sha1Extend : Nat → List Nat → List Nat
  | 0, ws => ws
  | n + 1, ws =>
    let t := ws.length
    sha1Extend n
      (ws ++ [rotl (nthW ws (t - 3) ^^^ nthW ws (t - 8) ^^^ nthW ws (t - 14) ^^^ nthW ws (t - 16)) 1])

/-- The SHA-1 round function, varying with the round index. -/
def sha1F (t b c d : Nat) : Nat :=
  if t < 20 then (b &&& c) ||| ((b ^^^ 4294967295) &&& d)
  else if t < 40 then b ^^^ c ^^^ d
  else if t < 60 then (b &&& c) ||| (b &&& d) ||| (c &&& d)
  else b ^^^ c ^^^ d

/-- The SHA-1 round constants (decimal), varying with the round index. -/
def sha1Kc (t : Nat) : Nat :=
  if t < 20 then 1518500249
  else if t < 40 then 1859775393
  else if t < 60 then 2400959708
  else 3395469782

/-- One SHA-1 compression round, consuming a `(round-index, schedule-word)` pair. -/
def sha1Round (s : Words5) (tw : Nat × Nat) : Words5 :=
  let temp := w32 (rotl s.a 5 + sha1F tw.1 s.b s.c s.d + s.e + sha1Kc tw.1 + tw.2)
  ⟨temp, s.a, rotl s.b 30, s.c, s.d⟩

/-- Compression of one 64-byte block. -/
def sha1Compress (h : Words5) (block : List Nat) : Words5 :=
  let ws := sha1Extend 64 (bytesToWords block)
  let fin := ((List.range 80).zip ws).foldl sha1Round h
  ⟨w32 (h.a + fin.a), w32 (h.b + fin.b), w32 (h.c + fin.c), w32 (h.d + fin.d), w32 (h.e + fin.e)⟩

/-- SHA-1 digest (20 bytes) of a byte list; models `sha1.Sum`. -/
def sha1 (msg : List Nat) : List Nat :=
  let fin := (chunks64 (shaPad msg)).foldl sha1Compress sha1Init
  ([fin.a, fin.b, fin.c, fin.d, fin.e]).flatMap word32be

/-! ## HMAC (`crypto/hmac`), hex (`encoding/hex`), strings and decimals -/

/-- HMAC over a hash with 64-byte block size; models `hmac.New(h, key)` + `Sum`. -/
def hmacBytes (hashFn : List Nat → List Nat) (key msg : List Nat) : List Nat :=
  let k0 := if 64 < key.length then hashFn key else key
  let k1 := k0 ++ List.replicate (64 - k0.length) 0
  hashFn ((k1.map (· ^^^ 92)) ++ hashFn ((k1.map (· ^^^ 54)) ++ msg))

/-- UTF-8 encoding of one character (Go strings are UTF-8 byte sequences). -/
def utf8Char (c : Char) : List Nat :=
  let n := c.toNat
  if n < 128 then [n]
  else if n < 2048 then [192 + n / 64, 128 + n % 64]
  else if n < 65536 then [224 + n / 4096, 128 + n / 64 % 64, 128 + n % 64]
  else [240 + n / 262144, 128 + n / 4096 % 64, 128 + n / 64 % 64, 128 + n % 64]

/-- The UTF-8 bytes of a string, i.e. Go `[]byte(s)`. -/
def strBytes (s : String) : List Nat := s.data.flatMap utf8Char

/-- ASCII code of the lowercase hex digit for `n < 16`. -/
def hexDigitByte (n : Nat) : Nat := if n < 10 then 48 + n else 87 + n

/-- Lowercase hex rendering of a byte list; models `hex.EncodeToString`. -/
def hexEncode (bs : List Nat) : List Nat :=
  bs.flatMap fun b => [hexDigitByte (b / 16), hexDigitByte (b % 16)]

/-- Value of one ASCII hex digit; `none` on a non-hex character. -/
def unhexChar (c : Nat) : Option Nat :=
  if 48 ≤ c ∧ c ≤ 57 then some (c - 48)
  else if 97 ≤ c ∧ c ≤ 102 then some (c - 87)
  else if 65 ≤ c ∧ c ≤ 70 then some (c - 55)
  else none

/-- Hex decoding of an ASCII byte list; models `hex.Decode` (fails on odd
length or a non-hex character). -/
def hexDecode : List Nat → Option (List Nat)
  | [] => some []
  | [_] => none
  | c1 :: c2 :: rest =>
    match unhexChar c1, unhexChar c2, hexDecode rest with
    | some hi, some lo, some bs => some ((16 * hi + lo) :: bs)
    | _, _, _ => none

/-- Go slice expression `l[i:]`: `none` models the out-of-range panic when
`i` exceeds the length. -/
def goSliceFrom (l : List Nat) (i : Nat) : Option (List Nat) :=
  if i ≤ l.length then some (l.drop i) else none

/-- ASCII bytes of the decimal rendering of an integer, i.e.
`fmt.Sprintf("%d", i)` for Go signed integers. -/
def decBytes (i : Int) : List Nat :=
  if i < 0 then 45 :: (Nat.toDigits 10 i.natAbs).map Char.toNat
  else (Nat.toDigits 10 i.natAbs).map Char.toNat

/-! ## Data model

The event structures live in the repository's `model.go`, which is not part
of the extracted sources; they are modelled from the spec.  Only the fields
the receiver reads are included. -/

/-- Modelled from the spec: repository owner, read as `Repository.Owner.Login`. -/
structure Owner where
  login : String
deriving Repr, DecidableEq

/-- Modelled from the spec: `Repository: {FullName, Owner.Login}`. -/
structure Repository where
  fullName : String
  owner : Owner
deriving Repr, DecidableEq

/-- Modelled from the spec: `Step: {Name, Status, Conclusion, StartedAt,
CompletedAt}`.  Times are opaque instants (nanoseconds). -/
structure Step where
  name : String
  status : String
  conclusion : String
  startedAt : Int
  completedAt : Int
deriving Repr, DecidableEq, Inhabited

/-- Modelled from the spec: `WorkflowJob` with the fields the receiver reads.
`id` is the job's own identifier; `runID` is the enclosing run's. -/
structure WorkflowJob where
  id : Int
  runID : Int
  runAttempt : Int
  name : String
  status : String
  conclusion : String
  steps : List Step
  headBranch : String
  headSha : String
  runnerName : String
  workflowName : String
  createdAt : Int
  completedAt : Int
deriving Repr, DecidableEq

/-- Modelled from the spec: `WorkflowRun` with the fields the receiver reads,
including its own nested `Repository` (read for `ci.actor`). -/
structure WorkflowRun where
  id : Int
  runAttempt : Int
  name : String
  path : String
  status : String
  conclusion : String
  headBranch : String
  headSha : String
  runStartedAt : Int
  updatedAt : Int
  repository : Repository
deriving Repr, DecidableEq

/-- Modelled from the spec: the decoded `workflow_job` webhook payload. -/
structure WorkflowJobEvent where
  workflowJob : WorkflowJob
  repository : Repository
deriving Repr, DecidableEq

/-- Modelled from the spec: the decoded `workflow_run` webhook payload. -/
structure WorkflowRunEvent where
  workflowRun : WorkflowRun
  repository : Repository
deriving Repr, DecidableEq

/-- The closed variant over the two decoded event shapes (`ClassifiedEvent`). -/
inductive Event where
  | job (e : WorkflowJobEvent)
  | run (e : WorkflowRunEvent)
deriving Repr, DecidableEq

/-- Modelled from the spec: the receiver configuration fields the core reads
(`Secret`, `CustomServiceName`, `ServiceNamePrefix`, `ServiceNameSuffix`). -/
structure Config where
  secret : String
  customServiceName : String
  serviceNamePre : String
  serviceNameSuf : String
deriving Repr, DecidableEq

/-- Span status codes (`ptrace.StatusCode`); pdata default is `unset`. -/
inductive StatusCode where
  | unset
  | ok
  | error
deriving Repr, DecidableEq

/-- Span kinds; the receiver only ever sets `server`, pdata default is
`unspecified`. -/
inductive SpanKind where
  | unspecified
  | server
deriving Repr, DecidableEq

/-- A span as the receiver populates it (`ptrace.Span`).  Identifiers are
byte lists; the defaults are the pdata zero values. -/
structure Span where
  traceId : List Nat := List.replicate 16 0
  spanId : List Nat := List.replicate 8 0
  parentSpanId : List Nat := List.replicate 8 0
  name : String := ""
  kind : SpanKind := .unspecified
  startTime : Int := 0
  endTime : Int := 0
  statusCode : StatusCode := .unset
  statusMessage : String := ""
deriving Repr, DecidableEq

/-- Attribute values put on the resource (`PutStr` / `PutInt`). -/
inductive AttrVal where
  | str (s : String)
  | int (i : Int)
deriving Repr, DecidableEq

/-- A trace document: one resource and its scope-span groups, mirroring the
`ResourceSpans`/`ScopeSpans` nesting the receiver builds. -/
structure Trace where
  resourceAttrs : List (String × AttrVal)
  scopeSpans : List (List Span)
deriving Repr, DecidableEq

/-- All spans of a trace in order (`SpanCount` view). -/
def Trace.spans (t : Trace) : List Span := t.scopeSpans.flatten

/-! ## Identifier derivation (`generateTraceID`, `generate*SpanID`) -/

/-- `generateTraceID`: hash `fmt.Sprintf("%d%dt", runID, runAttempt)`,
hex-encode the digest, and hex-decode the first 32 hex characters back into
16 bytes. -/
def generateTraceID (runID runAttempt : Int) : Option (List Nat) :=
  let input := decBytes runID ++ decBytes runAttempt ++ strBytes "t"
  let hash := sha256 input
  let traceIDHex := hexEncode hash
  hexDecode (traceIDHex.take 32)

/-- `generateJobSpanID`: hash `fmt.Sprintf("%d%d%s", runID, runAttempt, job)`
and hex-decode characters `[16:32)` of the hex digest into 8 bytes. -/
def generateJobSpanID (runID runAttempt : Int) (job : String) : Option (List Nat) :=
  let input := decBytes runID ++ decBytes runAttempt ++ strBytes job
  let spanIDHex := hexEncode (sha256 input)
  hexDecode ((spanIDHex.drop 16).take 16)

/-- `generateParentSpanID`: hash `fmt.Sprintf("%d%ds", runID, runAttempt)`
and hex-decode characters `[16:32)` of the hex digest into 8 bytes. -/
def generateParentSpanID (runID runAttempt : Int) : Option (List Nat) :=
  let input := decBytes runID ++ decBytes runAttempt ++ strBytes "s"
  let spanIDHex := hexEncode (sha256 input)
  hexDecode ((spanIDHex.drop 16).take 16)

/-- The zero `pcommon.SpanID{}`. -/
def zeroSpanID : List Nat := List.replicate 8 0

/-! ## Service name and resource attributes -/

/-- `strings.ReplaceAll` for a single-character pattern and replacement. -/
def replaceAllChar (s : String) (old new : Char) : String :=
  ⟨s.data.map fun c => if c = old then new else c⟩

/-- `strings.ToLower`; `Char.toLower` agrees with Go on ASCII input. -/
def toLowerStr (s : String) : String := ⟨s.data.map Char.toLower⟩

/-- `generateServiceName`. -/
def generateServiceName (config : Config) (fullName : String) : String :=
  if config.customServiceName ≠ "" then config.customServiceName
  else
    let formattedName := toLowerStr (replaceAllChar (replaceAllChar fullName '/' '-') '_' '-')
    config.serviceNamePre ++ formattedName ++ config.serviceNameSuf

/-- `createResourceAttributes`: the resource attributes put for each event
kind, in insertion order. -/
def createResourceAttributes (event : Event) (config : Config) : List (String × AttrVal) :=
  match event with
  | .job e =>
    [("service.name", .str (generateServiceName config e.repository.fullName)),
     ("ci.system", .str "github"),
     ("ci.actor", .str e.repository.owner.login),
     ("ci.github.job", .str e.workflowJob.name),
     ("ci.github.run_id", .int e.workflowJob.runID),
     ("ci.github.run_attempt", .int e.workflowJob.runAttempt),
     ("ci.github.runner.name", .str e.workflowJob.runnerName),
     ("ci.github.workflow", .str e.workflowJob.workflowName),
     ("scm.system", .str "git"),
     ("scm.git.branch", .str e.workflowJob.headBranch),
     ("scm.git.sha", .str e.workflowJob.headSha),
     ("scm.git.repo", .str e.repository.fullName)]
  | .run e =>
    [("service.name", .str (generateServiceName config e.repository.fullName)),
     ("ci.system", .str "github"),
     ("ci.actor", .str e.workflowRun.repository.owner.login),
     ("ci.github.run_id", .int e.workflowRun.id),
     ("ci.github.run_attempt", .int e.workflowRun.runAttempt),
     ("ci.github.workflow", .str e.workflowRun.name),
     ("ci.github.workflow_path", .str e.workflowRun.path),
     ("scm.system", .str "git"),
     ("scm.git.branch", .str e.workflowRun.headBranch),
     ("scm.git.sha", .str e.workflowRun.headSha),
     ("scm.git.repo", .str e.repository.fullName)]

/-! ## Span construction -/

/-- The status aggregation loop inside `createParentSpan`: fold the steps
through the two mutable flags `(allSuccessful, anyFailure)`, with the early
`break` on the first `"failure"` conclusion. -/
def aggLoop : List Step → Bool → Bool × Bool
  | [], allSuccessful => (allSuccessful, false)
  | step :: rest, allSuccessful =>
    let allSuccessful :=
      if step.status != "completed" || step.conclusion != "success" then false else allSuccessful
    if step.conclusion == "failure" then (allSuccessful, true)
    else aggLoop rest allSuccessful

/-- The job span status code computed by `createParentSpan`'s loop and
if-chain. -/
def jobStatus (steps : List Step) : StatusCode :=
  let r := aggLoop steps true
  if r.2 then .error else if r.1 then .ok else .unset

/-- `createParentSpan`: builds the job span.  Note the error results of
`generateParentSpanID` and `generateJobSpanID` are discarded with `_`, the
zero span id (their Go error-path return value) being used instead, and that
the span-id input is `job.ID`, not `job.RunID`. -/
def createParentSpan (steps : List Step) (job : WorkflowJob) (traceID : List Nat) : Span :=
  let parentSpanID := (generateParentSpanID job.runID job.runAttempt).getD zeroSpanID
  let jobSpanID := (generateJobSpanID job.id job.runAttempt job.name).getD zeroSpanID
  let times :=
    if steps.length > 0 then
      ((steps.headD default).startedAt, (steps.getLastD default).completedAt)
    else (job.createdAt, job.completedAt)
  { traceId := traceID
    parentSpanId := parentSpanID
    spanId := jobSpanID
    name := job.name
    kind := .server
    startTime := times.1
    endTime := times.2
    statusCode := jobStatus steps }

/-- `createSpan`: builds one step span; `spanId` is the freshly generated
random id (`generateSpanID()`), supplied here by the caller. -/
def createSpan (spanId : List Nat) (step : Step) (traceID parentSpanID : List Nat) : Span :=
  { traceId := traceID
    parentSpanId := parentSpanID
    spanId := spanId
    startTime := step.startedAt
    endTime := step.completedAt
    name := step.name
    kind := .server
    statusCode :=
      if step.conclusion == "success" then .ok
      else if step.conclusion == "failure" then .error
      else .unset
    statusMessage := step.conclusion }

/-- `processSteps`: one step span per step, in order; `gen i` models the
`i`-th call to the ambient random `generateSpanID()`. -/
def processSteps (gen : Nat → List Nat) (steps : List Step) (traceID parentSpanID : List Nat) :
    List Span :=
  steps.enum.map fun p => createSpan (gen p.1) p.2 traceID parentSpanID

/-- `createRootSpan`: builds the run root span.  The span is appended before
the id derivation, so on a (provably unreachable) derivation failure the
already-appended default span remains un-populated. -/
def createRootSpan (event : WorkflowRunEvent) (traceID : List Nat) : Span :=
  match generateParentSpanID event.workflowRun.id event.workflowRun.runAttempt with
  | none => {}
  | some rootSpanID =>
    { traceId := traceID
      spanId := rootSpanID
      name := event.workflowRun.name
      kind := .server
      startTime := event.workflowRun.runStartedAt
      endTime := event.workflowRun.updatedAt
      statusCode :=
        if event.workflowRun.conclusion == "success" then .ok
        else if event.workflowRun.conclusion == "failure" then .error
        else .unset
      statusMessage := event.workflowRun.conclusion }

/-! ## Event conversion (`eventToTraces`, `UnmarshalTraces`) -/

/-- `eventToTraces`: returns the built trace together with the Go error
value (`none` = nil error).  One `ResourceSpans` with one `ScopeSpans` is
appended up front; `createRootSpan` appends a second `ScopeSpans` on the
completed-run path. -/
def eventToTraces (gen : Nat → List Nat) (event : Event) (config : Config) :
    Trace × Option String :=
  match event with
  | .job e =>
    let attrs := createResourceAttributes (.job e) config
    match generateTraceID e.workflowJob.runID e.workflowJob.runAttempt with
    | none => (⟨attrs, [[]]⟩, some "failed to generate trace ID")
    | some traceID =>
      if e.workflowJob.status = "completed" then
        let parentSpan := createParentSpan e.workflowJob.steps e.workflowJob traceID
        let stepSpans := processSteps gen e.workflowJob.steps traceID parentSpan.spanId
        (⟨attrs, [parentSpan :: stepSpans]⟩, none)
      else (⟨attrs, [[]]⟩, none)
  | .run e =>
    match generateTraceID e.workflowRun.id e.workflowRun.runAttempt with
    | none => (⟨[], [[]]⟩, some "failed to generate trace ID")
    | some traceID =>
      if e.workflowRun.status = "completed" then
        (⟨createResourceAttributes (.run e) config, [[], [createRootSpan e traceID]]⟩, none)
      else (⟨[], [[]]⟩, none)

/-- `UnmarshalTraces`: the first-pass `json.Unmarshal` into a key map and the
second-pass typed decodes are external `encoding/json` behaviour, modelled by
their observable results: `topKeys` is the top-level key set of the payload
(`none` = malformed JSON), and `decodeJob` / `decodeRun` are the outcomes of
the typed decodes.  The branch structure is the receiver's. -/
def UnmarshalTraces (gen : Nat → List Nat) (topKeys : Option (String → Bool))
    (decodeJob : Except String WorkflowJobEvent) (decodeRun : Except String WorkflowRunEvent)
    (config : Config) : Except String Trace :=
  match topKeys with
  | none => .error "failed to unmarshal blob"
  | some hasKey =>
    if hasKey "workflow_job" then
      match decodeJob with
      | .error err => .error err
      | .ok jobEvent =>
        match eventToTraces gen (.job jobEvent) config with
        | (_, some err) => .error err
        | (traces, none) => .ok traces
    else if hasKey "workflow_run" then
      match decodeRun with
      | .error err => .error err
      | .ok runEvent =>
        match eventToTraces gen (.run runEvent) config with
        | (_, some err) => .error err
        | (traces, none) => .ok traces
    else .error "unknown event type"

/-! ## Signature verification (`validateSignature*`, `ServeHTTP` auth block) -/

/-- `validateSignatureSHA256`: guarded slice of the `"sha256="` header, then
constant-time comparison of hex HMAC digests (modelled as byte equality).
`none` would model a Go slice panic; the guard makes it unreachable here. -/
def validateSignatureSHA256 (secret signatureHeader body : List Nat) : Option Bool :=
  if signatureHeader = [] ∨ signatureHeader.length < 7 then some false
  else
    (goSliceFrom signatureHeader 7).map fun receivedSig =>
      hexEncode (hmacBytes sha256 secret body) == receivedSig

/-- `validateSignatureSHA1`: slices `signatureHeader[5:]` with no length
guard beyond non-emptiness, so `none` (the Go slice-out-of-range panic) is
reachable for non-empty headers shorter than 5 bytes. -/
def validateSignatureSHA1 (secret signatureHeader body : List Nat) : Option Bool :=
  if signatureHeader = [] then some false
  else
    (goSliceFrom signatureHeader 5).map fun receivedSig =>
      hexEncode (hmacBytes sha1 secret body) == receivedSig

/-- The authentication block of `ServeHTTP` (lines 464–479): `some true` =
request continues, `some false` = 401 rejection, `none` = a verifier panic.
When the SHA-256 check does not reject — the header being absent **or**
verifying successfully — control falls into the `else` branch and the SHA-1
header is also consulted. -/
def serveAuth (secret sig256 sig1 body : List Nat) : Option Bool :=
  if secret = [] then some true
  else if sig256 ≠ [] then
    match validateSignatureSHA256 secret sig256 body with
    | none => none
    | some false => some false
    | some true =>
      if sig1 = [] then some true
      else validateSignatureSHA1 secret sig1 body
  else if sig1 = [] then some true
  else validateSignatureSHA1 secret sig1 body

/-! ## Spec-side reference definitions

Each of these follows the spec's own wording, to be compared with the
source-derived definitions above. -/

/-- Modelled from the spec: `traceID(runID, runAttempt)` = first 16 bytes of
`SHA-256(concat(decimal(runID), decimal(runAttempt), "t"))`. -/
def specTraceID (runID runAttempt : Int) : List Nat :=
  (sha256 (decBytes runID ++ decBytes runAttempt ++ strBytes "t")).take 16

/-- Bytes `[8, 16)` of the digest of `input`: the value produced by decoding
hex characters `[16, 32)` of the hex-encoded digest. -/
def digestMidBytes (input : List Nat) : List Nat := ((sha256 input).drop 8).take 8

/-- Modelled from the spec: status aggregation over the steps — `Error` if
some step concluded `"failure"`, else `Ok` if every step completed
successfully, else `Unset`. -/
def specStatusAggregation (steps : List Step) : StatusCode :=
  if steps.any (fun s => s.conclusion == "failure") then .error
  else if steps.all (fun s => s.status == "completed" && s.conclusion == "success") then .ok
  else .unset

/-! ## Concrete fixtures used by witnesses and counterexamples -/

/-- A deterministic stand-in for the ambient random span-id stream. -/
def gen0 : Nat → List Nat := fun _ => zeroSpanID

/-- An all-defaults configuration: no secret, no service-name override. -/
def cfg0 : Config := ⟨"", "", "", ""⟩

def repo0 : Repository := ⟨"octo/hello_world", ⟨"octo"⟩⟩

def stepSuccess : Step :=
  { name := "build", status := "completed", conclusion := "success",
    startedAt := 10, completedAt := 20 }

def stepFailure : Step := { stepSuccess with name := "test", conclusion := "failure" }

def stepSkipped : Step := { stepSuccess with name := "deploy", conclusion := "skipped" }

/-- A completed job for run 12345, attempt 1; its own job id is 111. -/
def jobBase : WorkflowJob :=
  { id := 111, runID := 12345, runAttempt := 1, name := "build-job", status := "completed",
    conclusion := "success", steps := [stepSuccess], headBranch := "main", headSha := "deadbeef",
    runnerName := "runner-1", workflowName := "ci", createdAt := 5, completedAt := 25 }

def jobEvent (wj : WorkflowJob) : WorkflowJobEvent := ⟨wj, repo0⟩

/-- A completed run with the same `(runID, runAttempt)` key as `jobBase`. -/
def runBase : WorkflowRun :=
  { id := 12345, runAttempt := 1, name := "ci", path := ".github/workflows/ci.yml",
    status := "completed", conclusion := "success", headBranch := "main", headSha := "deadbeef",
    runStartedAt := 0, updatedAt := 30, repository := repo0 }

def runEvent0 : WorkflowRunEvent := ⟨runBase, repo0⟩

def jobInProgress : WorkflowJobEvent := jobEvent { jobBase with status := "in_progress" }

def runInProgress : WorkflowRunEvent := ⟨{ runBase with status := "in_progress" }, repo0⟩

/-- A correct `X-Hub-Signature-256` header for secret `"k"` and body `"b"`:
`"sha256=" ++ hex(HMAC-SHA256("k", "b"))`. -/
def goodSig256 : List Nat :=
  strBytes "sha256=2fb39898cf6b5cadbde2377d14dbc7331caaf0825d59106d090deeb785aaa389"

/-- A well-formed but wrong `X-Hub-Signature-256` header. -/
def badSig256 : List Nat := strBytes "sha256=00"

/-- A top-level key set containing both `"workflow_job"` and `"workflow_run"`. -/
def hasKeyBoth : String → Bool := fun k => k == "workflow_job" || k == "workflow_run"

/-! ## Library facts about the hex pipeline and the digests -/

theorem hexDigitByte_roundtrip : ∀ n < 16, unhexChar (hexDigitByte n) = some n := by decide

theorem hexEncode_cons (b : Nat) (bs : List Nat) :
    hexEncode (b :: bs) = hexDigitByte (b / 16) :: hexDigitByte (b % 16) :: hexEncode bs := by
  simp [hexEncode]

theorem hexEncode_append (a b : List Nat) :
    hexEncode (a ++ b) = hexEncode a ++ hexEncode b := by
  simp [hexEncode]

theorem hexEncode_length (bs : List Nat) : (hexEncode bs).length = 2 * bs.length := by
  induction bs with
  | nil => rfl
  | cons b t ih => rw [hexEncode_cons]; simp [ih]; omega

/-- Hex decoding inverts hex encoding on genuine byte lists. -/
theorem hexDecode_hexEncode (bs : List Nat) (h : ∀ b ∈ bs, b < 256) :
    hexDecode (hexEncode bs) = some bs := by
  induction bs with
  | nil => rfl
  | cons b t ih =>
    have hb : b < 256 := h b (List.mem_cons_self _ _)
    have h1 : unhexChar (hexDigitByte (b / 16)) = some (b / 16) :=
      hexDigitByte_roundtrip _ (by omega)
    have h2 : unhexChar (hexDigitByte (b % 16)) = some (b % 16) :=
      hexDigitByte_roundtrip _ (by omega)
    rw [hexEncode_cons, hexDecode, h1, h2, ih fun x hx => h x (List.mem_cons_of_mem _ hx)]
    simp [Nat.div_add_mod]

theorem hexEncode_take (bs : List Nat) (n : Nat) (h : n ≤ bs.length) :
    (hexEncode bs).take (2 * n) = hexEncode (bs.take n) := by
  conv_lhs => rw [← List.take_append_drop n bs]
  rw [hexEncode_append, List.take_left' (by rw [hexEncode_length, List.length_take]; omega)]

theorem hexEncode_drop (bs : List Nat) (n : Nat) (h : n ≤ bs.length) :
    (hexEncode bs).drop (2 * n) = hexEncode (bs.drop n) := by
  conv_lhs => rw [← List.take_append_drop n bs]
  rw [hexEncode_append, List.drop_left' (by rw [hexEncode_length, List.length_take]; omega)]

theorem word32be_lt (w : Nat) : ∀ b ∈ word32be w, b < 256 := by
  intro b hb
  simp only [word32be, List.mem_cons, List.not_mem_nil, or_false] at hb
  rcases hb with h | h | h | h <;> subst h <;> exact Nat.mod_lt _ (by omega)

theorem sha256_bytes_lt (msg : List Nat) : ∀ b ∈ sha256 msg, b < 256 := by
  intro b hb
  simp only [sha256, List.mem_flatMap] at hb
  obtain ⟨w, _, hw⟩ := hb
  exact word32be_lt w b hw

theorem sha256_length (msg : List Nat) : (sha256 msg).length = 32 := by
  simp [sha256, word32be]

/-- The trace-id derivation always succeeds and equals the first 16 digest
bytes: the hex encode/slice/decode pipeline is the identity on them. -/
theorem generateTraceID_eq (runID runAttempt : Int) :
    generateTraceID runID runAttempt = some (specTraceID runID runAttempt) := by
  have hlen : (16 : Nat) ≤ (sha256 (decBytes runID ++ decBytes runAttempt ++ strBytes "t")).length := by
    rw [sha256_length]; omega
  have htake : (hexEncode (sha256 (decBytes runID ++ decBytes runAttempt ++ strBytes "t"))).take 32 =
      hexEncode ((sha256 (decBytes runID ++ decBytes runAttempt ++ strBytes "t")).take 16) := by
    have := hexEncode_take (sha256 (decBytes runID ++ decBytes runAttempt ++ strBytes "t")) 16 hlen
    simpa using this
  simp only [generateTraceID, specTraceID]
  rw [htake, hexDecode_hexEncode]
  intro b hb
  exact sha256_bytes_lt _ b (List.take_subset _ _ hb)

theorem hexSlice_digestMid (input : List Nat) :
    hexDecode (((hexEncode (sha256 input)).drop 16).take 16) = some (digestMidBytes input) := by
  have hlen : (8 : Nat) ≤ (sha256 input).length := by rw [sha256_length]; omega
  have hdrop : (hexEncode (sha256 input)).drop 16 = hexEncode ((sha256 input).drop 8) := by
    have := hexEncode_drop (sha256 input) 8 hlen
    simpa using this
  have hlen2 : (8 : Nat) ≤ ((sha256 input).drop 8).length := by
    rw [List.length_drop, sha256_length]; omega
  have htake : (hexEncode ((sha256 input).drop 8)).take 16 =
      hexEncode (((sha256 input).drop 8).take 8) := by
    have := hexEncode_take ((sha256 input).drop 8) 8 hlen2
    simpa using this
  rw [hdrop, htake, hexDecode_hexEncode]
  · rfl
  · intro b hb
    exact sha256_bytes_lt input b (List.drop_subset _ _ (List.take_subset _ _ hb))

theorem generateJobSpanID_eq (runID runAttempt : Int) (job : String) :
    generateJobSpanID runID runAttempt job =
      some (digestMidBytes (decBytes runID ++ decBytes runAttempt ++ strBytes job)) :=
  hexSlice_digestMid _

theorem generateParentSpanID_eq (runID runAttempt : Int) :
    generateParentSpanID runID runAttempt =
      some (digestMidBytes (decBytes runID ++ decBytes runAttempt ++ strBytes "s")) :=
  hexSlice_digestMid _

/-! ## Status aggregation -/

/-- The source's flag loop, started from accumulator `acc`, agrees with the
declarative aggregation. -/
theorem aggLoop_spec (steps : List Step) (acc : Bool) :
    (if (aggLoop steps acc).2 then StatusCode.error
     else if (aggLoop steps acc).1 then StatusCode.ok else StatusCode.unset) =
    (if steps.any (fun s => s.conclusion == "failure") then StatusCode.error
     else if acc && steps.all (fun s => s.status == "completed" && s.conclusion == "success")
       then StatusCode.ok else StatusCode.unset) := by
  induction steps generalizing acc with
  | nil => simp [aggLoop]
  | cons s t ih =>
    cases hfail : s.conclusion == "failure" with
    | true =>
      have hsucc : (s.conclusion == "success") = false := by
        have : s.conclusion = "failure" := by simpa using hfail
        simp [this]
      simp [aggLoop, hfail, List.any_cons]
    | false =>
      have hstep : aggLoop (s :: t) acc =
          aggLoop t (if (s.status != "completed" || s.conclusion != "success") = true
            then false else acc) := by
        simp [aggLoop, hfail]
      rw [hstep, ih, List.any_cons, List.all_cons, hfail]
      cases hx : s.status == "completed" <;> cases hy : s.conclusion == "success" <;>
        cases acc <;> simp [hx, hy, bne]

theorem jobStatus_eq_spec (steps : List Step) : jobStatus steps = specStatusAggregation steps := by
  have h := aggLoop_spec steps true
  simpa [jobStatus, specStatusAggregation] using h

/-- The conversion never returns a Go error: both match arms that would
report an identifier-derivation failure are unreachable. -/
theorem eventToTraces_err_none (gen : Nat → List Nat) (event : Event) (config : Config) :
    (eventToTraces gen event config).2 = none := by
  cases event with
  | job e =>
    simp only [eventToTraces, generateTraceID_eq]
    by_cases h : e.workflowJob.status = "completed" <;> simp [h]
  | run e =>
    simp only [eventToTraces, generateTraceID_eq]
    by_cases h : e.workflowRun.status = "completed" <;> simp [h]

/-- Every span built on the job path carries the trace id derived from
`(WorkflowJob.RunID, WorkflowJob.RunAttempt)`. -/
theorem job_spans_traceId (gen : Nat → List Nat) (cfg : Config) (e : WorkflowJobEvent) :
    ∀ s ∈ (eventToTraces gen (Event.job e) cfg).1.spans,
      s.traceId = specTraceID e.workflowJob.runID e.workflowJob.runAttempt := by
  intro s hs
  by_cases h : e.workflowJob.status = "completed"
  · simp only [eventToTraces, generateTraceID_eq, h, if_true, Trace.spans] at hs
    simp only [List.flatten_cons, List.flatten_nil, List.append_nil, List.mem_cons] at hs
    rcases hs with rfl | hs
    · simp [createParentSpan]
    · simp only [processSteps, List.mem_map] at hs
      obtain ⟨p, _, rfl⟩ := hs
      simp [createSpan]
  · simp [eventToTraces, generateTraceID_eq, h, Trace.spans] at hs

/-- Every span built on the run path carries the trace id derived from
`(WorkflowRun.ID, WorkflowRun.RunAttempt)`. -/
theorem run_spans_traceId (gen : Nat → List Nat) (cfg : Config) (e : WorkflowRunEvent) :
    ∀ s ∈ (eventToTraces gen (Event.run e) cfg).1.spans,
      s.traceId = specTraceID e.workflowRun.id e.workflowRun.runAttempt := by
  intro s hs
  by_cases h : e.workflowRun.status = "completed"
  · simp only [eventToTraces, generateTraceID_eq, h, if_true, Trace.spans] at hs
    simp only [List.flatten_cons, List.flatten_nil, List.append_nil, List.nil_append,
      List.mem_cons, List.not_mem_nil, or_false] at hs
    subst hs
    simp [createRootSpan, generateParentSpanID_eq]
  · simp [eventToTraces, generateTraceID_eq, h, Trace.spans] at hs

/-! ## The claims -/

/-- Claim C1 (refuted — code bug): the claim says the job span's SpanID is a
pure function of `(RunID, RunAttempt, JobName)`, hashing
`concat(decimal(runID), decimal(runAttempt), jobName)`.  In the source,
`createParentSpan` passes `job.ID` — the job's own identifier, not the run's —
to `generateJobSpanID` (whose parameter is nonetheless named `runID`).  Two
completed jobs agreeing on RunID, RunAttempt and Name but differing in job ID
therefore receive different span ids, and the emitted span id is bytes
`[8, 16)` of SHA-256 over the decimal of `job.ID`, not of `job.RunID`. -/
theorem claim_C1_bug :
    ((jobEvent jobBase).workflowJob.runID =
        (jobEvent { jobBase with id := 222 }).workflowJob.runID ∧
      (jobEvent jobBase).workflowJob.runAttempt =
        (jobEvent { jobBase with id := 222 }).workflowJob.runAttempt ∧
      (jobEvent jobBase).workflowJob.name =
        (jobEvent { jobBase with id := 222 }).workflowJob.name) ∧
    (((eventToTraces gen0 (Event.job (jobEvent jobBase)) cfg0).1.spans.map Span.spanId ==
      (eventToTraces gen0 (Event.job (jobEvent { jobBase with id := 222 })) cfg0).1.spans.map
        Span.spanId) = false) ∧
    ((eventToTraces gen0 (Event.job (jobEvent jobBase)) cfg0).1.spans.head?.map Span.spanId =
      some (digestMidBytes
        (decBytes jobBase.id ++ decBytes jobBase.runAttempt ++ strBytes jobBase.name))) :=
  ⟨⟨rfl, rfl, rfl⟩, by decide, by decide⟩

/-- Claim C2 (counterexample): signature verification is claimed never to
fail or crash, and to return false on any header shorter than its scheme
prefix, for both verifiers.  The SHA-1 verifier instead slices
`signatureHeader[5:]` behind only a non-emptiness guard, so the present but
short header `"sha1"` (4 bytes) hits a slice-out-of-range panic (`none`)
rather than returning false. -/
theorem claim_C2_counterexample :
    validateSignatureSHA1 (strBytes "k") (strBytes "sha1") (strBytes "b") = none := by decide

/-- Claim C2 (amended): the SHA-256 verifier totally returns a boolean and
returns false on any header shorter than 7 bytes.  The SHA-1 verifier
returns false on the empty header and totally returns a boolean on headers
of length at least 5, but panics (`none`) on a non-empty header shorter than
5 bytes instead of treating it as unauthenticated. -/
theorem claim_C2_amended :
    (∀ secret header body, (validateSignatureSHA256 secret header body).isSome = true) ∧
    (∀ secret header body, header.length < 7 →
      validateSignatureSHA256 secret header body = some false) ∧
    (∀ secret body, validateSignatureSHA1 secret [] body = some false) ∧
    (∀ secret header body, 5 ≤ header.length →
      (validateSignatureSHA1 secret header body).isSome = true) ∧
    (∀ secret header body, header ≠ [] → header.length < 5 →
      validateSignatureSHA1 secret header body = none) := by
  refine ⟨?_, ?_, ?_, ?_, ?_⟩
  · intro secret header body
    by_cases h : header = [] ∨ header.length < 7
    · simp [validateSignatureSHA256, h]
    · push_neg at h
      have h7 : 7 ≤ header.length := by omega
      simp [validateSignatureSHA256, h.1, goSliceFrom, h7, Nat.not_lt.mpr h7]
  · intro secret header body h
    simp [validateSignatureSHA256, Or.inr h]
  · intro secret body
    rfl
  · intro secret header body h
    have hne : header ≠ [] := by
      intro he
      rw [he] at h
      simp at h
    simp [validateSignatureSHA1, hne, goSliceFrom, h]
  · intro secret header body hne h
    have h5 : ¬(5 ≤ header.length) := by omega
    simp [validateSignatureSHA1, hne, goSliceFrom, h5]

/-- Witness for the amended C2, at concrete headers of lengths 3, 5 and 4. -/
theorem claim_C2_witness :
    ((strBytes "sha").length < 7 ∧
      validateSignatureSHA256 (strBytes "k") (strBytes "sha") (strBytes "b") = some false) ∧
    (5 ≤ (strBytes "sha1=").length ∧
      (validateSignatureSHA1 (strBytes "k") (strBytes "sha1=") (strBytes "b")).isSome = true) ∧
    (strBytes "shaX" ≠ [] ∧ (strBytes "shaX").length < 5 ∧
      validateSignatureSHA1 (strBytes "k") (strBytes "shaX") (strBytes "b") = none) :=
  ⟨⟨by decide, claim_C2_amended.2.1 _ _ _ (by decide)⟩,
   ⟨by decide, claim_C2_amended.2.2.2.1 _ _ _ (by decide)⟩,
   ⟨by decide, by decide, claim_C2_amended.2.2.2.2 _ _ _ (by decide) (by decide)⟩⟩

/-- Claim C3: for a completed job, the job span's status code is `Error` if
some step concluded `"failure"`, else `Ok` if every step completed with
conclusion `"success"`, else `Unset` — the source's flag loop agrees with
this declarative aggregation, and the job span (the head of the emitted
spans) carries it. -/
theorem claim_C3 :
    (∀ steps, jobStatus steps = specStatusAggregation steps) ∧
    (∀ gen cfg e, e.workflowJob.status = "completed" →
      ((eventToTraces gen (Event.job e) cfg).1.spans.head?).map Span.statusCode =
        some (specStatusAggregation e.workflowJob.steps)) := by
  refine ⟨jobStatus_eq_spec, ?_⟩
  intro gen cfg e h
  simp only [eventToTraces, generateTraceID_eq, h, if_true, Trace.spans]
  simp [createParentSpan, jobStatus_eq_spec]

/-- Witness for C3 at the spec's three examples: steps
`[success, success] → Ok`, `[success, failure] → Error`,
`[success, skipped] → Unset`. -/
theorem claim_C3_witness :
    ((jobEvent { jobBase with steps := [stepSuccess, stepSuccess] }).workflowJob.status =
        "completed" ∧
      ((eventToTraces gen0
          (Event.job (jobEvent { jobBase with steps := [stepSuccess, stepSuccess] }))
          cfg0).1.spans.head?).map Span.statusCode = some StatusCode.ok) ∧
    (((eventToTraces gen0
          (Event.job (jobEvent { jobBase with steps := [stepSuccess, stepFailure] }))
          cfg0).1.spans.head?).map Span.statusCode = some StatusCode.error) ∧
    (((eventToTraces gen0
          (Event.job (jobEvent { jobBase with steps := [stepSuccess, stepSkipped] }))
          cfg0).1.spans.head?).map Span.statusCode = some StatusCode.unset) :=
  ⟨⟨rfl, (claim_C3.2 gen0 cfg0 _ rfl).trans (by decide)⟩,
   (claim_C3.2 gen0 cfg0 _ rfl).trans (by decide),
   (claim_C3.2 gen0 cfg0 _ rfl).trans (by decide)⟩

/-- Claim C4: both event paths assign the same pure function of
`(runID, runAttempt)` as TraceID — the first 16 bytes of
`SHA-256(decimal(runID) ++ decimal(runAttempt) ++ "t")` — every span either
path emits carries it, and a job event and a run event sharing the key yield
spans with equal TraceID. -/
theorem claim_C4 :
    (∀ runID runAttempt, generateTraceID runID runAttempt =
      some (specTraceID runID runAttempt)) ∧
    (∀ gen cfg e, ((eventToTraces gen (Event.job e) cfg).1.spans.all
      fun s => s.traceId == specTraceID e.workflowJob.runID e.workflowJob.runAttempt) = true) ∧
    (∀ gen cfg e, ((eventToTraces gen (Event.run e) cfg).1.spans.all
      fun s => s.traceId == specTraceID e.workflowRun.id e.workflowRun.runAttempt) = true) ∧
    (∀ gen gen' cfg cfg' je re, je.workflowJob.runID = re.workflowRun.id →
      je.workflowJob.runAttempt = re.workflowRun.runAttempt →
      ((eventToTraces gen (Event.job je) cfg).1.spans.all fun s1 =>
        (eventToTraces gen' (Event.run re) cfg').1.spans.all fun s2 =>
          s1.traceId == s2.traceId) = true) := by
  refine ⟨generateTraceID_eq, ?_, ?_, ?_⟩
  · intro gen cfg e
    rw [List.all_eq_true]
    intro s hs
    simpa using job_spans_traceId gen cfg e s hs
  · intro gen cfg e
    rw [List.all_eq_true]
    intro s hs
    simpa using run_spans_traceId gen cfg e s hs
  · intro gen gen' cfg cfg' je re h1 h2
    rw [List.all_eq_true]
    intro s1 hs1
    rw [List.all_eq_true]
    intro s2 hs2
    have e1 := job_spans_traceId gen cfg je s1 hs1
    have e2 := run_spans_traceId gen' cfg' re s2 hs2
    simp [e1, e2, h1, h2]

/-- Witness for C4: the spec's worked key `(12345, 1)`, and the concrete
completed job and run events sharing that key. -/
theorem claim_C4_witness :
    (generateTraceID 12345 1 = some (specTraceID 12345 1)) ∧
    ((jobEvent jobBase).workflowJob.runID = runEvent0.workflowRun.id ∧
      (jobEvent jobBase).workflowJob.runAttempt = runEvent0.workflowRun.runAttempt) ∧
    ((eventToTraces gen0 (Event.job (jobEvent jobBase)) cfg0).1.spans.all fun s1 =>
      (eventToTraces gen0 (Event.run runEvent0) cfg0).1.spans.all fun s2 =>
        s1.traceId == s2.traceId) = true :=
  ⟨claim_C4.1 12345 1, ⟨rfl, rfl⟩, claim_C4.2.2.2 gen0 gen0 cfg0 cfg0 _ _ rfl rfl⟩

/-- Claim C5 (counterexample): the claim says that for a request carrying a
SHA-256 header the outcome is decided by SHA-256 alone and the SHA-1 header
is never consulted.  In `ServeHTTP`, a present-and-valid SHA-256 header
falls into the `else` branch where SHA-1 is checked too: with the correct
SHA-256 signature for secret `"k"` and body `"b"`, the request passes with
no SHA-1 header but is rejected with a wrong SHA-1 header. -/
theorem claim_C5_counterexample :
    serveAuth (strBytes "k") goodSig256 [] (strBytes "b") = some true ∧
    serveAuth (strBytes "k") goodSig256 (strBytes "sha1=00") (strBytes "b") = some false :=
  ⟨by decide, by decide⟩

/-- Claim C5 (amended): with a secret configured and a SHA-256 header
present, SHA-256 is checked first; if it fails, the request is rejected
without consulting the SHA-1 header (the outcome is the same for every SHA-1
header value); if it succeeds, the SHA-1 header is additionally consulted —
absent passes, present defers to SHA-1 verification. -/
theorem claim_C5_amended (secret sig256 sig1 sig1' body : List Nat)
    (hsec : secret ≠ []) (h256 : sig256 ≠ []) :
    (validateSignatureSHA256 secret sig256 body = some false →
      serveAuth secret sig256 sig1 body = some false ∧
      serveAuth secret sig256 sig1 body = serveAuth secret sig256 sig1' body) ∧
    (validateSignatureSHA256 secret sig256 body = some true →
      serveAuth secret sig256 sig1 body =
        (if sig1 = [] then some true else validateSignatureSHA1 secret sig1 body)) := by
  constructor
  · intro hv
    constructor <;> simp [serveAuth, hsec, h256, hv]
  · intro hv
    simp [serveAuth, hsec, h256, hv]

/-- Witness for the amended C5 at the concrete secret `"k"`, body `"b"`, a
wrong and a correct SHA-256 header. -/
theorem claim_C5_witness :
    (strBytes "k" ≠ [] ∧ badSig256 ≠ [] ∧
      validateSignatureSHA256 (strBytes "k") badSig256 (strBytes "b") = some false ∧
      serveAuth (strBytes "k") badSig256 (strBytes "sha1=00") (strBytes "b") = some false ∧
      serveAuth (strBytes "k") badSig256 (strBytes "sha1=00") (strBytes "b") =
        serveAuth (strBytes "k") badSig256 [] (strBytes "b")) ∧
    (validateSignatureSHA256 (strBytes "k") goodSig256 (strBytes "b") = some true ∧
      serveAuth (strBytes "k") goodSig256 (strBytes "sha1=00") (strBytes "b") =
        (if (strBytes "sha1=00") = [] then some true
         else validateSignatureSHA1 (strBytes "k") (strBytes "sha1=00") (strBytes "b"))) := by
  have hbad : validateSignatureSHA256 (strBytes "k") badSig256 (strBytes "b") = some false := by
    decide
  have hgood : validateSignatureSHA256 (strBytes "k") goodSig256 (strBytes "b") = some true := by
    decide
  refine ⟨⟨by decide, by decide, hbad, ?_, ?_⟩, hgood, ?_⟩
  · exact ((claim_C5_amended (strBytes "k") badSig256 (strBytes "sha1=00") [] (strBytes "b")
      (by decide) (by decide)).1 hbad).1
  · exact ((claim_C5_amended (strBytes "k") badSig256 (strBytes "sha1=00") [] (strBytes "b")
      (by decide) (by decide)).1 hbad).2
  · exact (claim_C5_amended (strBytes "k") goodSig256 (strBytes "sha1=00") [] (strBytes "b")
      (by decide) (by decide)).2 hgood

/-- Claim C6: identifier derivation never fails — the hex pipeline decodes
hex it just produced — so every derivation returns a value on every input
and the conversion never takes its abort branch for either event kind.  The
claimed abort-on-failure behaviour therefore holds because its antecedent
(a trace-id, run-parent-span-id or job-span-id derivation failure) is
unreachable: conversion always completes with a nil Go error. -/
theorem claim_C6 :
    (∀ runID runAttempt, (generateTraceID runID runAttempt).isSome = true) ∧
    (∀ runID runAttempt, (generateParentSpanID runID runAttempt).isSome = true) ∧
    (∀ runID runAttempt job, (generateJobSpanID runID runAttempt job).isSome = true) ∧
    (∀ gen event config, (eventToTraces gen event config).2 = none) := by
  refine ⟨?_, ?_, ?_, eventToTraces_err_none⟩
  · intro r a
    rw [generateTraceID_eq]
    rfl
  · intro r a
    rw [generateParentSpanID_eq]
    rfl
  · intro r a j
    rw [generateJobSpanID_eq]
    rfl

/-- Claim C7: a decoded job event whose status is not `"completed"` converts
without error into a trace whose resource attributes are fully populated
(the complete job attribute set) but which contains zero spans. -/
theorem claim_C7 (gen : Nat → List Nat) (cfg : Config) (e : WorkflowJobEvent)
    (h : e.workflowJob.status ≠ "completed") :
    eventToTraces gen (Event.job e) cfg =
      (⟨createResourceAttributes (Event.job e) cfg, [[]]⟩, none) ∧
    (eventToTraces gen (Event.job e) cfg).1.spans = [] := by
  constructor
  · simp [eventToTraces, generateTraceID_eq, h]
  · simp [eventToTraces, generateTraceID_eq, h, Trace.spans]

/-- Witness for C7: a job event with status `"in_progress"`. -/
theorem claim_C7_witness :
    jobInProgress.workflowJob.status ≠ "completed" ∧
    eventToTraces gen0 (Event.job jobInProgress) cfg0 =
      (⟨createResourceAttributes (Event.job jobInProgress) cfg0, [[]]⟩, none) ∧
    (eventToTraces gen0 (Event.job jobInProgress) cfg0).1.spans = [] := by
  have h : jobInProgress.workflowJob.status ≠ "completed" := by decide
  exact ⟨h, (claim_C7 gen0 cfg0 jobInProgress h).1, (claim_C7 gen0 cfg0 jobInProgress h).2⟩

/-- Claim C8: when the top-level object carries both a `"workflow_job"` and
a `"workflow_run"` key, `UnmarshalTraces` follows the `workflow_job` branch:
the result never depends on the `workflow_run` decode, a failed job decode
propagates its error, and a successful one is converted as a job event (the
conversion error being nil, the built trace is returned). -/
theorem claim_C8 (gen : Nat → List Nat) (cfg : Config) (hasKey : String → Bool)
    (dj : Except String WorkflowJobEvent) (dr dr' : Except String WorkflowRunEvent)
    (hj : hasKey "workflow_job" = true) (hr : hasKey "workflow_run" = true) :
    UnmarshalTraces gen (some hasKey) dj dr cfg = UnmarshalTraces gen (some hasKey) dj dr' cfg ∧
    (∀ je, dj = .ok je → UnmarshalTraces gen (some hasKey) dj dr cfg =
      .ok (eventToTraces gen (Event.job je) cfg).1) ∧
    (∀ err, dj = .error err → UnmarshalTraces gen (some hasKey) dj dr cfg = .error err) := by
  have key : ∀ je : WorkflowJobEvent,
      UnmarshalTraces gen (some hasKey) (Except.ok je) dr cfg =
        Except.ok (eventToTraces gen (Event.job je) cfg).1 := by
    intro je
    have hnone := eventToTraces_err_none gen (Event.job je) cfg
    rcases hE : eventToTraces gen (Event.job je) cfg with ⟨t, err⟩
    rw [hE] at hnone
    simp only at hnone
    subst hnone
    simp [UnmarshalTraces, hj, hE]
  refine ⟨?_, ?_, ?_⟩
  · simp [UnmarshalTraces, hj]
  · intro je hje
    subst hje
    exact key je
  · intro err he
    subst he
    simp [UnmarshalTraces, hj]

/-- Witness for C8: a key set containing both keys, a decodable job event,
and two different run-decode outcomes. -/
theorem claim_C8_witness :
    (hasKeyBoth "workflow_job" = true ∧ hasKeyBoth "workflow_run" = true) ∧
    UnmarshalTraces gen0 (some hasKeyBoth) (Except.ok (jobEvent jobBase)) (Except.ok runEvent0)
        cfg0 =
      UnmarshalTraces gen0 (some hasKeyBoth) (Except.ok (jobEvent jobBase))
        (Except.error "never decoded") cfg0 ∧
    UnmarshalTraces gen0 (some hasKeyBoth) (Except.ok (jobEvent jobBase)) (Except.ok runEvent0)
        cfg0 =
      Except.ok (eventToTraces gen0 (Event.job (jobEvent jobBase)) cfg0).1 :=
  ⟨⟨by decide, by decide⟩,
   (claim_C8 gen0 cfg0 hasKeyBoth (Except.ok (jobEvent jobBase)) (Except.ok runEvent0)
     (Except.error "never decoded") (by decide) (by decide)).1,
   (claim_C8 gen0 cfg0 hasKeyBoth (Except.ok (jobEvent jobBase)) (Except.ok runEvent0)
     (Except.error "never decoded") (by decide) (by decide)).2.1 (jobEvent jobBase) rfl⟩

/-- Claim C9: a decoded run event whose status is not `"completed"` converts
without error into a trace with zero spans and — unlike the job path — an
empty resource attribute set. -/
theorem claim_C9 (gen : Nat → List Nat) (cfg : Config) (e : WorkflowRunEvent)
    (h : e.workflowRun.status ≠ "completed") :
    eventToTraces gen (Event.run e) cfg = (⟨[], [[]]⟩, none) ∧
    (eventToTraces gen (Event.run e) cfg).1.resourceAttrs = [] ∧
    (eventToTraces gen (Event.run e) cfg).1.spans = [] := by
  refine ⟨?_, ?_, ?_⟩ <;> simp [eventToTraces, generateTraceID_eq, h, Trace.spans]

/-- Witness for C9: a run event with status `"in_progress"`. -/
theorem claim_C9_witness :
    runInProgress.workflowRun.status ≠ "completed" ∧
    eventToTraces gen0 (Event.run runInProgress) cfg0 = (⟨[], [[]]⟩, none) ∧
    (eventToTraces gen0 (Event.run runInProgress) cfg0).1.resourceAttrs = [] ∧
    (eventToTraces gen0 (Event.run runInProgress) cfg0).1.spans = [] := by
  have h : runInProgress.workflowRun.status ≠ "completed" := by decide
  exact ⟨h, (claim_C9 gen0 cfg0 runInProgress h).1, (claim_C9 gen0 cfg0 runInProgress h).2.1,
    (claim_C9 gen0 cfg0 runInProgress h).2.2⟩

/-- Claim C10: a completed job event with no steps yields a trace containing
exactly one span, with status `Ok` (the all-steps-successful condition holds
vacuously) and time range `[CreatedAt, CompletedAt]`, and no error. -/
theorem claim_C10 (gen : Nat → List Nat) (cfg : Config) (e : WorkflowJobEvent)
    (h1 : e.workflowJob.status = "completed") (h2 : e.workflowJob.steps = []) :
    (eventToTraces gen (Event.job e) cfg).2 = none ∧
    (eventToTraces gen (Event.job e) cfg).1.spans.map
        (fun s => (s.statusCode, s.startTime, s.endTime)) =
      [(StatusCode.ok, e.workflowJob.createdAt, e.workflowJob.completedAt)] := by
  refine ⟨eventToTraces_err_none gen (Event.job e) cfg, ?_⟩
  simp only [eventToTraces, generateTraceID_eq, h1, if_true, Trace.spans]
  simp [h2, processSteps, createParentSpan, jobStatus, aggLoop]

/-- Witness for C10: the completed base job with its steps removed. -/
theorem claim_C10_witness :
    ((jobEvent { jobBase with steps := [] }).workflowJob.status = "completed" ∧
      (jobEvent { jobBase with steps := [] }).workflowJob.steps = []) ∧
    (eventToTraces gen0 (Event.job (jobEvent { jobBase with steps := [] })) cfg0).2 = none ∧
    (eventToTraces gen0 (Event.job (jobEvent { jobBase with steps := [] })) cfg0).1.spans.map
        (fun s => (s.statusCode, s.startTime, s.endTime)) =
      [(StatusCode.ok, (jobEvent { jobBase with steps := [] }).workflowJob.createdAt,
        (jobEvent { jobBase with steps := [] }).workflowJob.completedAt)] :=
  ⟨⟨rfl, rfl⟩, (claim_C10 gen0 cfg0 _ rfl rfl).1, (claim_C10 gen0 cfg0 _ rfl rfl).2⟩
